import Mathlib

/-
Verification of the frame-lifecycle and GPU-resource layer of the hotham
engine, shallowly embedded from the Rust sources:
  src/hotham/src/engine.rs
  src/hotham/src/rendering/resources.rs
  src/hotham/src/rendering/light.rs
  src/hotham/src/resources/haptic_context.rs
  src/hotham/src/systems/update_rigid_body_transforms.rs
  src/examples/crab-saber/src/components/colour.rs
Machine floating point values (f32) are modelled as exact rationals, or as
real numbers where transcendental functions (cos, sqrt on arbitrary inputs)
are involved.  External side effects (sleeping, OpenXR and Vulkan calls,
descriptor writes) are modelled as explicit traces of action events.
-/

namespace Hotham

/-! ## Session state machine (engine.rs) -/

/-- The OpenXR session state, from the openxr crate consumed by engine.rs.
The engine reacts to the members listed in the spec. -/
inductive SessionState where
  | idle
  | ready
  | synchronized
  | visible
  | focused
  | stopping
  | exiting
  | lossPending
  deriving DecidableEq, Repr, Fintype

/-- Modelled from the spec: the HothamError enumeration lives in
src/hotham/src/lib.rs, which is not among the provided sources.  Per the
error-handling design, the shutdown signal (ShuttingDown, raised on the
Exiting state or on an external quit request) is a variant distinct from all
true failures, which are collapsed here into a single other-failure variant. -/
inductive HothamError where
  | shuttingDown
  | otherFailure
  deriving DecidableEq, Repr, Fintype

/-- Observable side effects performed by Engine.update while reacting to a
session-state transition: sleeping the thread for a number of milliseconds,
beginning the OpenXR session, or ending it. -/
inductive EngineAction where
  | sleepMillis (ms : Nat)
  | beginSession
  | endSession
  deriving DecidableEq, Repr

/-- The match statement on (previous_state, current_state) inside
Engine.update (engine.rs lines 106-125), embedded as the list of engine
actions it performs together with a flag recording whether the arm returned
early with Err(HothamError::ShuttingDown) (the Exiting arm).  Arms are in
source order; like the Rust match, the first matching arm wins. -/
def Engine.transitionActions (previous current : SessionState) :
    List EngineAction × Bool :=
  match previous, current with
  | .stopping, .idle => ([], false)
  | _, .idle => ([.sleepMillis 100], false)
  | .idle, .ready => ([.beginSession], false)
  | _, .exiting => ([], true)
  | _, .stopping => ([.endSession], false)
  | _, _ => ([], false)

/-- Engine.update (engine.rs), embedded over the states it observes.  The
previous state is read from the XR context and the current state is the
result of polling the XR event stream; both are taken as parameters here.
After the transition match (whose Exiting arm returns
Err(HothamError::ShuttingDown) before the quit check), the external quit
flag should_quit is loaded, and if set the call likewise returns
Err(HothamError::ShuttingDown); otherwise it returns Ok of the pair of
states.  External calls (session begin/end, event polling) are modelled as
succeeding; their failures would merely propagate the collaborator's error.
The second component is the trace of engine actions performed. -/
def Engine.update (previous current : SessionState) (shouldQuit : Bool) :
    Except HothamError (SessionState × SessionState) × List EngineAction :=
  let (actions, exitingNow) := Engine.transitionActions previous current
  if exitingNow then
    (.error .shuttingDown, actions)
  else if shouldQuit then
    (.error .shuttingDown, actions)
  else
    (.ok (previous, current), actions)

/-- The state-transition table of spec section 4.1, written from the spec
words with first-match-wins reading order: Stopping->Idle does nothing,
any-other->Idle sleeps 100ms, Idle->Ready begins the session, any->Exiting
performs no state-specific action (it signals shutdown instead),
any->Stopping ends the session, and all other pairs do nothing. -/
def specTableActions (previous current : SessionState) : List EngineAction :=
  if previous = .stopping ∧ current = .idle then []
  else if current = .idle then [.sleepMillis 100]
  else if previous = .idle ∧ current = .ready then [.beginSession]
  else if current = .exiting then []
  else if current = .stopping then [.endSession]
  else []

/-- Total milliseconds slept by a trace of engine actions. -/
def sleepMillisTotal (actions : List EngineAction) : Nat :=
  (actions.map fun a =>
    match a with
    | .sleepMillis ms => ms
    | _ => 0).sum

instance : DecidableEq (Except HothamError (SessionState × SessionState)) := fun
  | .ok a, .ok b =>
      if h : a = b then isTrue (by rw [h])
      else isFalse (fun hh => h (by injection hh))
  | .ok _, .error _ => isFalse (fun hh => Except.noConfusion hh)
  | .error _, .ok _ => isFalse (fun hh => Except.noConfusion hh)
  | .error a, .error b =>
      if h : a = b then isTrue (by rw [h])
      else isFalse (fun hh => h (by injection hh))

/-! ## Frame controller (engine.rs begin_frame / end_frame) -/

/-- Observable calls made by Engine.begin_frame and Engine.end_frame to the
XR runtime and the render context, in execution order. -/
inductive FrameAction where
  | syncActions
  | xrBeginFrame
  | locateViews
  | renderBeginFrame (frameIndex : Nat)
  | renderEndFrame (frameIndex : Nat)
  | xrEndFrame
  deriving DecidableEq, Repr

/-- Engine.begin_frame (engine.rs lines 136-167), embedded as its trace of
external calls: it synchronizes the action set, waits for and begins the XR
frame, locates the views, and then calls RenderContext.begin_frame with the
current frame index only when the frame state says shouldRender; otherwise
no GPU work is started. -/
def Engine.beginFrame (shouldRender : Bool) (frameIndex : Nat) :
    List FrameAction :=
  [.syncActions, .xrBeginFrame, .locateViews] ++
    (if shouldRender then [.renderBeginFrame frameIndex] else [])

/-- Engine.end_frame (engine.rs lines 171-182), embedded as its trace of
external calls: it calls RenderContext.end_frame with the current frame
index only when shouldRender is set, and in every case then calls the XR
frame-end handshake. -/
def Engine.endFrame (shouldRender : Bool) (frameIndex : Nat) :
    List FrameAction :=
  (if shouldRender then [.renderEndFrame frameIndex] else []) ++ [.xrEndFrame]

/-! ## GPU resource arena (rendering/resources.rs) -/

/-- Modelled from the spec: the generic GPU buffer type of
src/hotham/src/rendering/buffer.rs is not among the provided sources.  Per
the spec it is an append-only linear buffer with a fixed capacity chosen at
creation and a write cursor equal to the number of elements pushed so far;
we model its CPU-visible contents as a list whose length is the cursor.
Exceeding the capacity is a fatal error in the source and is not exercised
by any claim, so pushes are modelled as always appending. -/
structure Buffer (α : Type) where
  capacity : Nat
  data : List α
  deriving Repr

/-- Buffer::new allocates an empty buffer of the given capacity. -/
def Buffer.new (α : Type) (capacity : Nat) : Buffer α :=
  { capacity := capacity, data := [] }

/-- Modelled from the spec: Buffer::push appends one element at the write
cursor and yields the slot index it was written to, which equals the number
of elements pushed before it. -/
def Buffer.push {α : Type} (b : Buffer α) (item : α) : Buffer α × Nat :=
  ({ b with data := b.data ++ [item] }, b.data.length)

/-- Modelled from the spec: the Material record of
src/hotham/src/rendering/material.rs is not among the provided sources.  Its
fields are irrelevant to the indexing claims, so it is kept as an opaque
payload with the derived all-zero default that Resources::new pushes into
slot 0 (the NO_MATERIAL constant). -/
structure Material where
  payload : Nat
  deriving DecidableEq, Repr

/-- Material::default(), the fallback material reserved at index 0. -/
def Material.default : Material :=
  { payload := 0 }

/-- A 4-component float vector (nalgebra Vector4 of f32), over exact
rationals. -/
structure Vec4 where
  x : ℚ
  y : ℚ
  z : ℚ
  w : ℚ
  deriving DecidableEq, Repr

/-- A 4x4 float matrix (nalgebra Matrix4 of f32), over exact rationals. -/
def Mat4 : Type :=
  Fin 4 → Fin 4 → ℚ

/-- The DrawData record of rendering/resources.rs: per-primitive drawing
instructions indexed by gl_DrawId. -/
structure DrawData where
  transform : Mat4
  inverse_transpose : Mat4
  bounding_sphere : Vec4
  material_id : Nat
  skin_id : Nat

/-- Modelled from the spec: the Vertex record of
src/hotham/src/rendering/vertex.rs is not among the provided sources; kept
opaque since no claim inspects vertices. -/
structure Vertex where
  payload : Nat

/-- Modelled from the spec: the SceneData record of
src/hotham/src/rendering/scene_data.rs is not among the provided sources;
kept opaque since no claim inspects scene data. -/
structure SceneData where
  payload : Nat

/-- The vk::DrawIndexedIndirectCommand record from the ash crate. -/
structure DrawIndexedIndirectCommand where
  index_count : Nat
  instance_count : Nat
  first_index : Nat
  vertex_offset : Int
  first_instance : Nat

/-- MAX_JOINTS in rendering/resources.rs. -/
def MAX_JOINTS : Nat := 64

/-- VERTEX_BUFFER_SIZE in rendering/resources.rs. -/
def VERTEX_BUFFER_SIZE : Nat := 1000000

/-- DRAW_DATA_BUFFER_SIZE in rendering/resources.rs. -/
def DRAW_DATA_BUFFER_SIZE : Nat := 10000

/-- MATERIAL_BUFFER_SIZE in rendering/resources.rs. -/
def MATERIAL_BUFFER_SIZE : Nat := 10000

/-- SKINS_BUFFER_SIZE in rendering/resources.rs. -/
def SKINS_BUFFER_SIZE : Nat := 100

/-- Names for the descriptor-backed buffers of the Resources struct, used to
record which buffer a descriptor-set update was issued for.  The vertex and
index buffers receive no descriptor binding in Resources::new. -/
inductive BufferKind where
  | vertex
  | index
  | drawData
  | materials
  | drawIndirect
  | skins
  | sceneData
  deriving DecidableEq, Repr

/-- The two shared samplers created by Resources::new: texture_sampler
(repeat mode) and cube_sampler (clamp-to-edge). -/
inductive SamplerKind where
  | textureSampler
  | cubeSampler
  deriving DecidableEq, Repr

/-- Descriptor-set writes issued to Vulkan, as an event trace: binding a
buffer to a fixed descriptor binding index (Buffer::update_descriptor_set),
or writing a texture view and sampler into a slot of the bound texture
array (Descriptors::write_texture_descriptor). -/
inductive DescriptorEvent where
  | bindBuffer (kind : BufferKind) (binding : Nat)
  | writeTexture (view : Nat) (sampler : SamplerKind) (index : Nat)
  deriving DecidableEq, Repr

/-- The Resources struct of rendering/resources.rs: the per-frame GPU
buffers, the stable mesh arena (not needed by any claim and omitted), and
the texture_count cursor of the bound texture array. -/
structure Resources where
  vertex_buffer : Buffer Vertex
  index_buffer : Buffer Nat
  draw_data_buffer : Buffer DrawData
  materials_buffer : Buffer Material
  draw_indirect_buffer : Buffer DrawIndexedIndirectCommand
  scene_data_buffer : Buffer SceneData
  skins_buffer : Buffer (Fin MAX_JOINTS → Mat4)
  texture_count : Nat

/-- Resources::new (rendering/resources.rs lines 58-127), embedded together
with the trace of descriptor-set updates it issues, in source order: the
draw-data buffer is bound to binding 0, the materials buffer to binding 1
(after which one default material is pushed, reserving index 0), the
indirect-draw buffer to binding 2, the skins buffer to binding 3, and the
scene-data uniform buffer to binding 4.  The vertex and index buffers are
created without a descriptor binding, and texture_count starts at 0. -/
def Resources.new : Resources × List DescriptorEvent :=
  let vertex_buffer := Buffer.new Vertex VERTEX_BUFFER_SIZE
  let index_buffer := Buffer.new Nat VERTEX_BUFFER_SIZE
  let draw_data_buffer := Buffer.new DrawData DRAW_DATA_BUFFER_SIZE
  let materials_buffer := Buffer.new Material MATERIAL_BUFFER_SIZE
  let materials_buffer := (materials_buffer.push Material.default).fst
  let draw_indirect_buffer :=
    Buffer.new DrawIndexedIndirectCommand MATERIAL_BUFFER_SIZE
  let skins_buffer := Buffer.new (Fin MAX_JOINTS → Mat4) SKINS_BUFFER_SIZE
  let scene_data_buffer := Buffer.new SceneData 1
  ({ vertex_buffer := vertex_buffer
     index_buffer := index_buffer
     draw_data_buffer := draw_data_buffer
     materials_buffer := materials_buffer
     draw_indirect_buffer := draw_indirect_buffer
     scene_data_buffer := scene_data_buffer
     skins_buffer := skins_buffer
     texture_count := 0 },
   [.bindBuffer .drawData 0,
    .bindBuffer .materials 1,
    .bindBuffer .drawIndirect 2,
    .bindBuffer .skins 3,
    .bindBuffer .sceneData 4])

/-- The binding indices the spec assigns to the descriptor-backed buffers
(spec section 6), written from the spec words; none for the vertex and
index buffers, which have no descriptor slot. -/
def specBinding : BufferKind → Option Nat
  | .drawData => some 0
  | .materials => some 1
  | .drawIndirect => some 2
  | .skins => some 3
  | .sceneData => some 4
  | _ => none

/-- The image formats distinguished by write_texture_to_array: everything is
sampled with the repeat-mode sampler except R16G16_SFLOAT images and
6-layer (cube) images. -/
inductive ImageFormat where
  | r16g16Sfloat
  | otherFormat
  deriving DecidableEq, Repr

/-- The fields of rendering/image.rs (not among the provided sources) that
write_texture_to_array reads: format, layer count, and the Vulkan image
view handle (modelled as a number). -/
structure Image where
  format : ImageFormat
  layer_count : Nat
  view : Nat
  deriving DecidableEq, Repr

/-- Resources::write_texture_to_array (rendering/resources.rs lines
128-145): chooses the cube sampler for R16G16_SFLOAT or 6-layer images and
the repeat sampler otherwise, writes the texture descriptor at slot
texture_count, increments texture_count by one, and returns the slot index.
The result is the returned index, the updated Resources, and the descriptor
write issued. -/
def Resources.write_texture_to_array (r : Resources) (image : Image) :
    Nat × Resources × DescriptorEvent :=
  let sampler :=
    if image.format = ImageFormat.r16g16Sfloat ∨ image.layer_count = 6 then
      SamplerKind.cubeSampler
    else
      SamplerKind.textureSampler
  let index := r.texture_count
  (index,
   { r with texture_count := r.texture_count + 1 },
   .writeTexture image.view sampler index)

/-- Runs write_texture_to_array once per image, in order, collecting the
returned indices. -/
def writeAllTextures (r : Resources) : List Image → List Nat × Resources
  | [] => ([], r)
  | image :: rest =>
    let step := r.write_texture_to_array image
    let next := writeAllTextures step.snd.fst rest
    (step.fst :: next.fst, next.snd)

/-- Runs Buffer::push once per material, in order, collecting the returned
slot indices. -/
def pushAllMaterials (b : Buffer Material) :
    List Material → Buffer Material × List Nat
  | [] => (b, [])
  | m :: rest =>
    let step := b.push m
    let next := pushAllMaterials step.fst rest
    (next.fst, step.snd :: next.snd)

/-! ## Haptics (resources/haptic_context.rs) -/

/-- Modelled from the spec: the Handedness enumeration of
src/hotham/src/components/hand.rs is not among the provided sources; the
spec and its consumers (haptic_context.rs, colour.rs) use it as the
left/right side selector. -/
inductive Handedness where
  | left
  | right
  deriving DecidableEq, Repr

/-- The Colour component of crab-saber (components/colour.rs). -/
inductive Colour where
  | red
  | blue
  deriving DecidableEq, Repr

/-- The From Handedness for Colour conversion in components/colour.rs. -/
def Colour.fromHandedness : Handedness → Colour
  | .left => .red
  | .right => .blue

/-- The Into Handedness for Colour conversion in components/colour.rs. -/
def Colour.intoHandedness : Colour → Handedness
  | .red => .left
  | .blue => .right

/-- The HapticContext resource of resources/haptic_context.rs: the pending
haptic amplitude for each hand this frame (f32 modelled as an exact
rational). -/
structure HapticContext where
  left_hand_amplitude_this_frame : ℚ
  right_hand_amplitude_this_frame : ℚ
  deriving DecidableEq, Repr

/-- HapticContext::request_haptic_feedback (haptic_context.rs lines 19-32):
for the requested side only, the stored amplitude is overwritten exactly
when the requested amplitude is strictly greater than the stored one. -/
def HapticContext.request_haptic_feedback (ctx : HapticContext)
    (amplitude : ℚ) (handedness : Handedness) : HapticContext :=
  match handedness with
  | .left =>
    if amplitude > ctx.left_hand_amplitude_this_frame then
      { ctx with left_hand_amplitude_this_frame := amplitude }
    else
      ctx
  | .right =>
    if amplitude > ctx.right_hand_amplitude_this_frame then
      { ctx with right_hand_amplitude_this_frame := amplitude }
    else
      ctx

/-- Applies a tick's worth of haptic feedback requests in order. -/
def runHapticTick (ctx : HapticContext) :
    List (ℚ × Handedness) → HapticContext
  | [] => ctx
  | (amplitude, handedness) :: rest =>
    runHapticTick (ctx.request_haptic_feedback amplitude handedness) rest

/-- The amplitudes requested for one given side during a tick, in order. -/
def amplitudesFor (side : Handedness) (requests : List (ℚ × Handedness)) :
    List ℚ :=
  requests.filterMap fun r => if r.snd = side then some r.fst else none

/-! ## Transform sync (systems/update_rigid_body_transforms.rs) -/

/-- A 3-component float vector (f32 modelled as an exact rational). -/
structure Vec3 where
  x : ℚ
  y : ℚ
  z : ℚ
  deriving DecidableEq, Repr

/-- A quaternion with coefficients i, j, k and scalar part w (nalgebra
Quaternion of f32, modelled over exact rationals). -/
structure Quat where
  i : ℚ
  j : ℚ
  k : ℚ
  w : ℚ
  deriving DecidableEq, Repr

/-- The squared Euclidean norm of a quaternion. -/
def Quat.normSq (q : Quat) : ℚ :=
  q.i * q.i + q.j * q.j + q.k * q.k + q.w * q.w

/-- UnitQuaternion::new_normalize from nalgebra: divides the quaternion by
its Euclidean norm.  The square root of the rational-valued squared norm is
taken with Rat.sqrt, which is exact on perfect squares — in particular on
the unit quaternions the physics engine stores as rigid-body rotations,
where the norm is 1 and normalization returns the quaternion unchanged. -/
def Quat.new_normalize (q : Quat) : Quat :=
  let n := Rat.sqrt q.normSq
  { i := q.i / n, j := q.j / n, k := q.k / n, w := q.w / n }

/-- A rapier3d Isometry: the pose of a rigid body, a translation together
with a rotation that rapier keeps at unit norm. -/
structure Isometry where
  translation : Vec3
  rotation : Quat
  deriving DecidableEq, Repr

instance : Inhabited Isometry :=
  ⟨{ translation := ⟨0, 0, 0⟩, rotation := ⟨0, 0, 0, 1⟩ }⟩

/-- Modelled from the spec: the PhysicsContext resource of
src/hotham/src/resources/physics_context.rs is not among the provided
sources.  The system reads only its rigid-body set, an arena indexed by
handle; we model it as a list indexed by position, holding each body's
current pose.  Indexing with a stale handle panics in the source; theorems
about the system therefore assume the handle is in bounds. -/
structure PhysicsContext where
  rigid_bodies : List Isometry
  deriving Repr

/-- Modelled from the spec: the RigidBody component of
src/hotham/src/components/rigid_body.rs is not among the provided sources;
it stores the handle of the entity's body in the physics arena. -/
structure RigidBody where
  handle : Nat
  deriving DecidableEq, Repr

/-- Modelled from the spec: the renderable Transform component of
src/hotham/src/components/transform.rs is not among the provided sources;
it holds the translation, rotation and scale used to build draw data. -/
structure Transform where
  translation : Vec3
  rotation : Quat
  scale : Vec3
  deriving DecidableEq, Repr

/-- An entity of the legion world as seen by the transform sync system: an
optional RigidBody component, an optional Transform component, and (to
observe that unrelated components are untouched) an optional crab-saber
Colour component. -/
structure Entity where
  rigidBody : Option RigidBody
  transform : Option Transform
  colour : Option Colour
  deriving DecidableEq, Repr

/-- The body of the update_rigid_body_transforms system
(systems/update_rigid_body_transforms.rs lines 9-25) for one entity.  The
legion for_each query runs the body exactly on entities holding both a
RigidBody and a Transform: it looks the body up by handle in the physics
context, copies the pose translation into the transform componentwise, and
sets the rotation to the re-normalized pose quaternion.  Entities lacking
either component are not visited and are returned unchanged. -/
def updateRigidBodyTransforms (pc : PhysicsContext) (e : Entity) : Entity :=
  match e.rigidBody, e.transform with
  | some rigid_body, some transform =>
    let position := pc.rigid_bodies.getD rigid_body.handle default
    { e with
      transform := some
        { transform with
          translation :=
            { x := position.translation.x
              y := position.translation.y
              z := position.translation.z }
          rotation := position.rotation.new_normalize } }
  | _, _ => e

/-- One pass of the system over the whole world, visiting entities in
order. -/
def runTransformSyncPass (pc : PhysicsContext) : List Entity → List Entity
  | [] => []
  | e :: rest => updateRigidBodyTransforms pc e :: runTransformSyncPass pc rest

/-! ## Lights (rendering/light.rs) -/

/-- LIGHT_TYPE_DIRECTIONAL in rendering/light.rs. -/
def LIGHT_TYPE_DIRECTIONAL : Nat := 0

/-- LIGHT_TYPE_POINT in rendering/light.rs. -/
def LIGHT_TYPE_POINT : Nat := 1

/-- LIGHT_TYPE_SPOT in rendering/light.rs. -/
def LIGHT_TYPE_SPOT : Nat := 2

/-- LIGHT_TYPE_NONE in rendering/light.rs: the u32::MAX sentinel marking an
inactive light slot. -/
def LIGHT_TYPE_NONE : Nat := 2 ^ 32 - 1

/-- MAX_LIGHTS in rendering/light.rs. -/
def MAX_LIGHTS : Nat := 4

/-- A 3-component vector over the reals, for the light descriptor whose
construction applies the transcendental cosine. -/
structure Vec3R where
  x : ℝ
  y : ℝ
  z : ℝ

/-- The Light record of rendering/light.rs, with f32 fields modelled as
real numbers. -/
structure Light where
  direction : Vec3R
  range : ℝ
  color : Vec3R
  intensity : ℝ
  position : Vec3R
  inner_cone_cos : ℝ
  outer_cone_cos : ℝ
  light_type : Nat

/-- The derived Light::default(): every numeric field zero. -/
def Light.default : Light :=
  { direction := ⟨0, 0, 0⟩
    range := 0
    color := ⟨0, 0, 0⟩
    intensity := 0
    position := ⟨0, 0, 0⟩
    inner_cone_cos := 0
    outer_cone_cos := 0
    light_type := 0 }

/-- Light::none() in rendering/light.rs: a default light whose light_type
is the LIGHT_TYPE_NONE sentinel. -/
def Light.none : Light :=
  { Light.default with light_type := LIGHT_TYPE_NONE }

/-- Light::new_spotlight (rendering/light.rs lines 53-72): stores the given
fields and converts both cone angles to their cosines at construction
time. -/
noncomputable def Light.new_spotlight (direction : Vec3R) (range : ℝ)
    (intensity : ℝ) (color : Vec3R) (position : Vec3R)
    (inner_cone_angle : ℝ) (outer_cone_angle : ℝ) : Light :=
  { direction := direction
    range := range
    color := color
    intensity := intensity
    position := position
    inner_cone_cos := Real.cos inner_cone_angle
    outer_cone_cos := Real.cos outer_cone_angle
    light_type := LIGHT_TYPE_SPOT }

/-- Light::new_directional (rendering/light.rs): a default light with the
given direction, color and intensity and the directional light type. -/
def Light.new_directional (direction : Vec3R) (intensity : ℝ)
    (color : Vec3R) : Light :=
  { Light.default with
    direction := direction
    color := color
    intensity := intensity
    light_type := LIGHT_TYPE_DIRECTIONAL }

/-- Light::new_point (rendering/light.rs): a default light with the given
position, range, color and intensity and the point light type. -/
def Light.new_point (position : Vec3R) (range : ℝ) (intensity : ℝ)
    (color : Vec3R) : Light :=
  { Light.default with
    position := position
    range := range
    color := color
    intensity := intensity
    light_type := LIGHT_TYPE_POINT }

/-! ## Theorems for the claims -/

/-- Claim C1: every call to Engine.update that observes a
(previous, current) session-state pair performs exactly the action mapped by
the first matching row of the spec's transition table — Stopping->Idle
nothing, any-other->Idle a 100ms sleep, Idle->Ready session begin,
any->Exiting shutdown with no further actions, any->Stopping session end,
and nothing for pairs outside the table — and on any->Exiting the call
returns the ShuttingDown signal. -/
theorem engine_update_matches_transition_table :
    (∀ (previous current : SessionState) (shouldQuit : Bool),
        (Engine.update previous current shouldQuit).snd
          = specTableActions previous current)
      ∧ (∀ (previous : SessionState) (shouldQuit : Bool),
          (Engine.update previous SessionState.exiting shouldQuit).fst
            = Except.error HothamError.shuttingDown) := by
  decide

/-- Claim C2: on every Engine.update call the external quit flag is
checked; when it is set the call returns the same ShuttingDown signal as
the Exiting state, after at most one bounded 100ms sleep, and in every case
the call either succeeds or reports exactly the ShuttingDown signal — the
shutdown signal shares no code path with a true failure. -/
theorem engine_update_quit_flag_forces_shutdown :
    ∀ (previous current : SessionState),
      (Engine.update previous current true).fst
          = Except.error HothamError.shuttingDown
        ∧ sleepMillisTotal (Engine.update previous current true).snd ≤ 100
        ∧ ∀ (shouldQuit : Bool),
            (Engine.update previous current shouldQuit).fst
                = Except.ok (previous, current)
              ∨ (Engine.update previous current shouldQuit).fst
                = Except.error HothamError.shuttingDown := by
  decide

/-- Claim C3: Engine.begin_frame instructs the render context to begin GPU
work exactly when should_render is true, Engine.end_frame finalizes GPU
work exactly when should_render is true, and the XR frame-end handshake is
invoked on every end_frame call regardless of the flag. -/
theorem frame_begin_end_render_gating :
    ∀ (shouldRender : Bool) (frameIndex : Nat),
      (FrameAction.renderBeginFrame frameIndex
            ∈ Engine.beginFrame shouldRender frameIndex
          ↔ shouldRender = true)
        ∧ (FrameAction.renderEndFrame frameIndex
              ∈ Engine.endFrame shouldRender frameIndex
            ↔ shouldRender = true)
        ∧ FrameAction.xrEndFrame ∈ Engine.endFrame shouldRender frameIndex := by
  intro shouldRender frameIndex
  cases shouldRender <;> simp [Engine.beginFrame, Engine.endFrame]

/-- From any starting texture count, a sequence of texture writes returns
the consecutive indices starting at that count and advances the count by
the number of writes. -/
theorem writeAllTextures_range (images : List Image) :
    ∀ r : Resources,
      (writeAllTextures r images).fst
          = List.range' r.texture_count images.length
        ∧ (writeAllTextures r images).snd.texture_count
          = r.texture_count + images.length := by
  induction images with
  | nil => intro r; simp [writeAllTextures]
  | cons image rest ih =>
    intro r
    have h := ih { r with texture_count := r.texture_count + 1 }
    refine ⟨?_, ?_⟩
    · simpa [writeAllTextures, Resources.write_texture_to_array,
        List.range'_succ] using h.left
    · simpa [writeAllTextures, Resources.write_texture_to_array,
        Nat.add_assoc, Nat.add_comm 1 rest.length] using h.right

/-- Claim C4: texture indices returned by write_texture_to_array are
assigned in allocation order starting at 0 and never reclaimed — every call
returns the current texture count and increments it by exactly one, so the
n-th call after construction returns n-1, and the indices of any call
sequence are pairwise distinct. -/
theorem write_texture_indices_sequential :
    (∀ (r : Resources) (image : Image),
        (r.write_texture_to_array image).fst = r.texture_count
          ∧ (r.write_texture_to_array image).snd.fst.texture_count
            = r.texture_count + 1)
      ∧ ∀ images : List Image,
          (writeAllTextures Resources.new.fst images).fst
              = List.range images.length
            ∧ (writeAllTextures Resources.new.fst images).snd.texture_count
              = images.length
            ∧ (writeAllTextures Resources.new.fst images).fst.Nodup := by
  refine ⟨fun r image => ⟨rfl, rfl⟩, fun images => ?_⟩
  have h := writeAllTextures_range images Resources.new.fst
  have hz : Resources.new.fst.texture_count = 0 := rfl
  rw [hz] at h
  refine ⟨?_, ?_, ?_⟩
  · rw [h.left, List.range_eq_range']
  · rw [h.right, Nat.zero_add]
  · rw [h.left, ← List.range_eq_range']
    exact List.nodup_range images.length

/-- Claim C7: constructing the Resources container binds the draw-data
buffer to descriptor binding 0, the materials buffer to binding 1, the
indirect-command buffer to binding 2, the skins buffer to binding 3, and
the scene-data uniform buffer to binding 4, and issues no other buffer
binding. -/
theorem resources_new_descriptor_bindings :
    ∀ (kind : BufferKind) (binding : Nat),
      DescriptorEvent.bindBuffer kind binding ∈ Resources.new.snd
        ↔ specBinding kind = some binding := by
  intro kind binding
  cases kind <;> simp [Resources.new, specBinding, eq_comm]

/-- From any starting buffer, a sequence of material pushes returns the
consecutive slot indices starting at the current length. -/
theorem pushAllMaterials_range (materials : List Material) :
    ∀ b : Buffer Material,
      (pushAllMaterials b materials).snd
        = List.range' b.data.length materials.length := by
  induction materials with
  | nil => intro b; simp [pushAllMaterials]
  | cons m rest ih =>
    intro b
    have h := ih (b.push m).fst
    simpa [pushAllMaterials, Buffer.push, List.range'_succ] using h

/-- Claim C8: after Resources construction the materials buffer holds
exactly the one default material, at index 0, and every material pushed
afterwards receives index 1, 2, ... — in particular an index greater
than 0. -/
theorem resources_new_reserves_material_zero :
    Resources.new.fst.materials_buffer.data = [Material.default]
      ∧ ∀ materials : List Material,
          (pushAllMaterials Resources.new.fst.materials_buffer materials).snd
            = List.range' 1 materials.length := by
  refine ⟨rfl, fun materials => ?_⟩
  have h := pushAllMaterials_range materials Resources.new.fst.materials_buffer
  simpa using h

/-- A left-hand request stores the max on the left and keeps the right
untouched. -/
theorem request_haptic_feedback_left (ctx : HapticContext) (a : ℚ) :
    (ctx.request_haptic_feedback a Handedness.left).left_hand_amplitude_this_frame
        = max ctx.left_hand_amplitude_this_frame a
      ∧ (ctx.request_haptic_feedback a Handedness.left).right_hand_amplitude_this_frame
        = ctx.right_hand_amplitude_this_frame := by
  constructor
  · by_cases h : a > ctx.left_hand_amplitude_this_frame
    · simp [HapticContext.request_haptic_feedback, h, max_eq_right h.le]
    · simp [HapticContext.request_haptic_feedback, h,
        max_eq_left (not_lt.mp h)]
  · by_cases h : a > ctx.left_hand_amplitude_this_frame <;>
      simp [HapticContext.request_haptic_feedback, h]

/-- A right-hand request stores the max on the right and keeps the left
untouched. -/
theorem request_haptic_feedback_right (ctx : HapticContext) (a : ℚ) :
    (ctx.request_haptic_feedback a Handedness.right).right_hand_amplitude_this_frame
        = max ctx.right_hand_amplitude_this_frame a
      ∧ (ctx.request_haptic_feedback a Handedness.right).left_hand_amplitude_this_frame
        = ctx.left_hand_amplitude_this_frame := by
  constructor
  · by_cases h : a > ctx.right_hand_amplitude_this_frame
    · simp [HapticContext.request_haptic_feedback, h, max_eq_right h.le]
    · simp [HapticContext.request_haptic_feedback, h,
        max_eq_left (not_lt.mp h)]
  · by_cases h : a > ctx.right_hand_amplitude_this_frame <;>
      simp [HapticContext.request_haptic_feedback, h]

/-- After any sequence of requests, each side holds the running maximum of
its starting value and the amplitudes requested for that side. -/
theorem runHapticTick_foldl_max (requests : List (ℚ × Handedness)) :
    ∀ ctx : HapticContext,
      (runHapticTick ctx requests).left_hand_amplitude_this_frame
          = List.foldl max ctx.left_hand_amplitude_this_frame
              (amplitudesFor Handedness.left requests)
        ∧ (runHapticTick ctx requests).right_hand_amplitude_this_frame
          = List.foldl max ctx.right_hand_amplitude_this_frame
              (amplitudesFor Handedness.right requests) := by
  induction requests with
  | nil => intro ctx; simp [runHapticTick, amplitudesFor]
  | cons r rest ih =>
    intro ctx
    obtain ⟨a, side⟩ := r
    cases side
    · have h := ih (ctx.request_haptic_feedback a Handedness.left)
      have hl := request_haptic_feedback_left ctx a
      refine ⟨?_, ?_⟩
      · simpa [runHapticTick, amplitudesFor, hl.left] using h.left
      · simpa [runHapticTick, amplitudesFor, hl.right] using h.right
    · have h := ih (ctx.request_haptic_feedback a Handedness.right)
      have hr := request_haptic_feedback_right ctx a
      refine ⟨?_, ?_⟩
      · simpa [runHapticTick, amplitudesFor, hr.right] using h.left
      · simpa [runHapticTick, amplitudesFor, hr.left] using h.right

/-- Claim C5: over any sequence of request_haptic_feedback calls within one
tick, each side's stored amplitude equals the maximum of its value at the
start of the tick and all amplitudes requested for that side, and a request
for one side never changes the other side's stored amplitude. -/
theorem haptic_feedback_per_side_max :
    ∀ (ctx : HapticContext) (requests : List (ℚ × Handedness)),
      (runHapticTick ctx requests).left_hand_amplitude_this_frame
          = List.foldl max ctx.left_hand_amplitude_this_frame
              (amplitudesFor Handedness.left requests)
        ∧ (runHapticTick ctx requests).right_hand_amplitude_this_frame
          = List.foldl max ctx.right_hand_amplitude_this_frame
              (amplitudesFor Handedness.right requests)
        ∧ ∀ a : ℚ,
            (ctx.request_haptic_feedback a
                Handedness.left).right_hand_amplitude_this_frame
                = ctx.right_hand_amplitude_this_frame
              ∧ (ctx.request_haptic_feedback a
                  Handedness.right).left_hand_amplitude_this_frame
                = ctx.left_hand_amplitude_this_frame := by
  intro ctx requests
  exact ⟨(runHapticTick_foldl_max requests ctx).left,
    (runHapticTick_foldl_max requests ctx).right,
    fun a => ⟨(request_haptic_feedback_left ctx a).right,
      (request_haptic_feedback_right ctx a).right⟩⟩

/-- Claim C6: for an entity holding both a rigid-body handle and a
renderable transform, one transform-sync pass sets the transform's
translation componentwise equal to the simulated body's position and its
rotation to the re-normalized simulated orientation quaternion, leaving the
scale and the other components as they were; with an unchanged simulation a
second consecutive pass reproduces exactly the same result. -/
theorem update_rigid_body_transforms_copies_pose
    (pc : PhysicsContext) (rb : RigidBody) (t : Transform) (c : Option Colour)
    (body : Isometry) (hbody : pc.rigid_bodies[rb.handle]? = some body) :
    updateRigidBodyTransforms pc ⟨some rb, some t, c⟩
        = ⟨some rb,
           some { translation := body.translation
                  rotation := body.rotation.new_normalize
                  scale := t.scale },
           c⟩
      ∧ updateRigidBodyTransforms pc
            (updateRigidBodyTransforms pc ⟨some rb, some t, c⟩)
          = updateRigidBodyTransforms pc ⟨some rb, some t, c⟩ := by
  constructor
  · simp [updateRigidBodyTransforms, List.getD_eq_getElem?_getD, hbody]
  · simp [updateRigidBodyTransforms, List.getD_eq_getElem?_getD, hbody]

/-- Witness for claim C6: a world with a single body at position (1,2,3)
and identity rotation, synced into a fresh transform. -/
theorem update_rigid_body_transforms_copies_pose_witness :
    (PhysicsContext.mk
          [⟨⟨1, 2, 3⟩, ⟨0, 0, 0, 1⟩⟩]).rigid_bodies[(0 : Nat)]?
        = some ⟨⟨1, 2, 3⟩, ⟨0, 0, 0, 1⟩⟩
      ∧ (updateRigidBodyTransforms ⟨[⟨⟨1, 2, 3⟩, ⟨0, 0, 0, 1⟩⟩]⟩
              ⟨some ⟨0⟩, some ⟨⟨0, 0, 0⟩, ⟨0, 0, 0, 1⟩, ⟨1, 1, 1⟩⟩, Option.none⟩
            = ⟨some ⟨0⟩,
               some { translation := Vec3.mk 1 2 3
                      rotation := (Quat.mk 0 0 0 1).new_normalize
                      scale := Vec3.mk 1 1 1 },
               Option.none⟩
          ∧ updateRigidBodyTransforms ⟨[⟨⟨1, 2, 3⟩, ⟨0, 0, 0, 1⟩⟩]⟩
                (updateRigidBodyTransforms ⟨[⟨⟨1, 2, 3⟩, ⟨0, 0, 0, 1⟩⟩]⟩
                  ⟨some ⟨0⟩, some ⟨⟨0, 0, 0⟩, ⟨0, 0, 0, 1⟩, ⟨1, 1, 1⟩⟩,
                    Option.none⟩)
              = updateRigidBodyTransforms ⟨[⟨⟨1, 2, 3⟩, ⟨0, 0, 0, 1⟩⟩]⟩
                  ⟨some ⟨0⟩, some ⟨⟨0, 0, 0⟩, ⟨0, 0, 0, 1⟩, ⟨1, 1, 1⟩⟩,
                    Option.none⟩) :=
  ⟨by decide,
   update_rigid_body_transforms_copies_pose
     ⟨[⟨⟨1, 2, 3⟩, ⟨0, 0, 0, 1⟩⟩]⟩ ⟨0⟩ ⟨⟨0, 0, 0⟩, ⟨0, 0, 0, 1⟩, ⟨1, 1, 1⟩⟩
     Option.none ⟨⟨1, 2, 3⟩, ⟨0, 0, 0, 1⟩⟩ (by decide)⟩

/-- Claim C10: a transform-sync pass leaves every field of the renderable
transform other than translation and rotation unchanged (in particular the
scale), leaves the entity's other components unchanged, and the whole-world
pass is an entity-wise map, so no component of any other entity is
modified. -/
theorem update_rigid_body_transforms_frame_effect :
    ∀ (pc : PhysicsContext) (e : Entity),
      ((updateRigidBodyTransforms pc e).transform).map Transform.scale
          = (e.transform).map Transform.scale
        ∧ (updateRigidBodyTransforms pc e).colour = e.colour
        ∧ (updateRigidBodyTransforms pc e).rigidBody = e.rigidBody
        ∧ ∀ world : List Entity,
            runTransformSyncPass pc world
              = world.map (updateRigidBodyTransforms pc) := by
  intro pc e
  obtain ⟨orb, otr, oc⟩ := e
  refine ⟨?_, ?_, ?_, ?_⟩
  · cases orb <;> cases otr <;> simp [updateRigidBodyTransforms]
  · cases orb <;> cases otr <;> simp [updateRigidBodyTransforms]
  · cases orb <;> cases otr <;> simp [updateRigidBodyTransforms]
  · intro world
    induction world with
    | nil => simp [runTransformSyncPass]
    | cons e rest ih => simp [runTransformSyncPass, ih]

/-- Claim C9: every spotlight built by Light::new_spotlight stores the
cosine of the supplied inner cone angle as inner_cone_cos and the cosine of
the supplied outer cone angle as outer_cone_cos, computed once at
construction time; in particular an inner cone angle of 0 yields an
inner_cone_cos of exactly 1, and the light type is the spot sentinel. -/
theorem new_spotlight_cone_cosines :
    ∀ (direction : Vec3R) (range intensity : ℝ) (color position : Vec3R)
      (inner_cone_angle outer_cone_angle : ℝ),
      (Light.new_spotlight direction range intensity color position
            inner_cone_angle outer_cone_angle).inner_cone_cos
          = Real.cos inner_cone_angle
        ∧ (Light.new_spotlight direction range intensity color position
              inner_cone_angle outer_cone_angle).outer_cone_cos
          = Real.cos outer_cone_angle
        ∧ (Light.new_spotlight direction range intensity color position
              0 outer_cone_angle).inner_cone_cos = 1
        ∧ (Light.new_spotlight direction range intensity color position
              inner_cone_angle outer_cone_angle).light_type
          = LIGHT_TYPE_SPOT := by
  intro direction range intensity color position inner_cone_angle
    outer_cone_angle
  refine ⟨rfl, rfl, ?_, rfl⟩
  simp [Light.new_spotlight, Real.cos_zero]

end Hotham
